import Mathlib

/-!
Shallow embedding of `src/DeepFilterNet3Processor.ts` from the
mezon-noise-suppression repository.

The class `DeepFilterNet3Processor` holds two static fields
(`preloadPromise`, `preloadConfig`) forming a one-slot acquisition cache,
and per-instance fields (`assets`, `workletNode`, `isInitialized`,
`bypassEnabled`, `config`).  Promises are modelled by numeric identifiers
drawn from a counter in the cache state; the resolution outcome of a
promise is supplied externally (a map from identifiers to a status),
matching the single-threaded cooperative model where the cache logic never
inspects the settlement of a promise.  Fetch calls are recorded as events so
that fetch counts are observable.
-/

namespace DFN3

/-- Modelled from the spec: `AssetConfig` lives in
`src/asset-loader/AssetLoader.ts`, which is not under `src/`.  Per the spec
it is "an optional override of base location and fetch options"; only the
base-location override (`cdnUrl`, read by `preload` as
`targetAssetConfig?.cdnUrl`) is relevant here. -/
structure AssetConfig where
  cdnUrl : Option String
deriving DecidableEq, Repr

/-- The constructor argument `DeepFilterNet3ProcessorConfig` (all fields
optional in the source interface). -/
structure ProcessorConfig where
  sampleRate : Option ℚ
  noiseReductionLevel : Option ℚ
  assetConfig : Option AssetConfig
deriving DecidableEq, Repr

/-- The empty object literal `{}`: every field absent. -/
def emptyConfig : ProcessorConfig :=
  { sampleRate := none, noiseReductionLevel := none, assetConfig := none }

/-- The hard-coded default CDN base used by `preload` when no override
location is supplied. -/
def defaultCdnUrl : String :=
  "https://cdn.mezon.ai/AI/models/datas/noise_suppression/deepfilternet3"

/-- Computes `ac?.cdnUrl ?? defaultCdnUrl` for an optional `AssetConfig`. -/
def effectiveCdn (ac : Option AssetConfig) : String :=
  ((ac.bind AssetConfig.cdnUrl).getD defaultCdnUrl)

/-- The two assets fetched per acquisition (`assetUrls.wasm`,
`assetUrls.model`). -/
inductive AssetKind
  | wasm
  | model
deriving DecidableEq, Repr

/-- A fetch event: which effective base location was fetched from, and
which asset.  Modelled from the spec: `getAssetUrls`/`fetchAsset` belong to
`AssetLoader` (not under `src/`); per the spec, `resolveLocations` is pure
and deterministic in the effective base location, so a fetch is identified
by (base, asset). -/
structure FetchEvent where
  base : String
  kind : AssetKind
deriving DecidableEq, Repr

/-- The static state of the class: the one-slot cache
(`preloadPromise : Promise | null`, `preloadConfig : AssetConfig |
undefined`), a counter minting fresh promise identifiers, and the log of
fetch events performed so far. -/
structure CacheState where
  preloadPromise : Option ℕ
  preloadConfig : Option AssetConfig
  nextId : ℕ
  fetches : List FetchEvent
deriving DecidableEq, Repr

/-- The static state before any call: both fields null/undefined, no
fetches performed. -/
def initState : CacheState :=
  { preloadPromise := none, preloadConfig := none, nextId := 0, fetches := [] }

/-- The body of the async IIFE in `preload`: mint a fresh promise, store it
and the target config in the static slot, and fetch both assets from the
effective base location of the target. -/
def startPreload (s : CacheState) (target : Option AssetConfig) : ℕ × CacheState :=
  (s.nextId,
    { preloadPromise := some s.nextId,
      preloadConfig := target,
      nextId := s.nextId + 1,
      fetches := s.fetches ++
        [{ base := effectiveCdn target, kind := AssetKind.wasm },
         { base := effectiveCdn target, kind := AssetKind.model }] })

/-- Static `DeepFilterNet3Processor.preload(config?)`: compute the requested and
cached effective CDN urls; if a promise is stored and the urls are equal,
return it unchanged, otherwise overwrite the slot with a fresh
acquisition.  Returns the promise identifier handed to the caller and the
updated static state. -/
def preload (s : CacheState) (config : Option ProcessorConfig) : ℕ × CacheState :=
  let targetAssetConfig : Option AssetConfig := config.bind ProcessorConfig.assetConfig
  let currentCdnUrl := effectiveCdn targetAssetConfig
  let cachedCdnUrl := effectiveCdn s.preloadConfig
  match s.preloadPromise with
  | some p => if currentCdnUrl = cachedCdnUrl then (p, s) else startPreload s targetAssetConfig
  | none => startPreload s targetAssetConfig

/-- JavaScript numbers as far as `setSuppressionLevel` can distinguish
them: `NaN`, the two infinities, and finite values (modelled as rationals;
every concrete literal in the source and spec is exactly representable). -/
inductive JSNum
  | nan
  | posInf
  | negInf
  | finite (q : ℚ)
deriving DecidableEq, Repr

namespace JSNum

/-- JS `isNaN(x)`. -/
def isNan : JSNum → Bool
  | nan => true
  | _ => false

/-- JS `Math.floor`. -/
def floor : JSNum → JSNum
  | nan => nan
  | posInf => posInf
  | negInf => negInf
  | finite q => finite (Int.floor q : ℤ)

/-- JS `Math.min` of two numbers (NaN-propagating, infinities ordered). -/
def jsMin : JSNum → JSNum → JSNum
  | nan, _ => nan
  | _, nan => nan
  | negInf, _ => negInf
  | _, negInf => negInf
  | posInf, b => b
  | a, posInf => a
  | finite a, finite b => finite (min a b)

/-- JS `Math.max` of two numbers (NaN-propagating, infinities ordered). -/
def jsMax : JSNum → JSNum → JSNum
  | nan, _ => nan
  | _, nan => nan
  | posInf, _ => posInf
  | _, posInf => posInf
  | negInf, b => b
  | a, negInf => a
  | finite a, finite b => finite (max a b)

end JSNum

/-- A message posted to the port of the worklet node. -/
inductive Msg
  | suppression (value : JSNum)
  | bypass (value : Bool)
deriving DecidableEq, Repr

/-- The `processorOptions` passed to `new AudioWorkletNode`: the acquired
asset set (identified by the promise that produced it) and the initial
`suppressionLevel`, taken verbatim from `this.config.noiseReductionLevel`. -/
structure InitOptions where
  assetsId : ℕ
  suppressionLevel : Option ℚ
deriving DecidableEq, Repr

/-- The per-instance execution handle (`AudioWorkletNode`): its
construction parameters, the log of messages posted to its port, and
whether `disconnect()` has been called on it. -/
structure WorkletState where
  options : InitOptions
  messages : List Msg
  disconnected : Bool
deriving DecidableEq, Repr

/-- Models `node.port.postMessage(m)`: the node with `m` appended to its message
log. -/
def postedNode (w : WorkletState) (m : Msg) : WorkletState :=
  { w with messages := w.messages ++ [m] }

/-- The per-instance fields of `DeepFilterNet3Processor`.  `assets` holds
the identifier of the acquired asset set or `null`; `workletNode` the
execution handle or `null`. -/
structure Processor where
  config : ProcessorConfig
  assets : Option ℕ
  workletNode : Option WorkletState
  isInitialized : Bool
  bypassEnabled : Bool
deriving DecidableEq, Repr

/-- The private constructor: fill `sampleRate` with 48000 and
`noiseReductionLevel` with 50 when absent, keep `assetConfig`, and start
with null assets, null worklet node, and both flags false. -/
def mkProcessor (config : ProcessorConfig) : Processor :=
  { config :=
      { sampleRate := some (config.sampleRate.getD 48000),
        noiseReductionLevel := some (config.noiseReductionLevel.getD 50),
        assetConfig := config.assetConfig },
    assets := none,
    workletNode := none,
    isInitialized := false,
    bypassEnabled := false }

/-- Models `static async create(config?)`, inlining `initialize` (which on a fresh
instance always runs: awaits `preload(this.config)`, stores the result and
sets `isInitialized`, or rethrows the rejection).  `rejected` tells, for
each promise identifier, whether awaiting it rejects. -/
def create (s : CacheState) (rejected : ℕ → Bool) (config : ProcessorConfig) :
    CacheState × Except Unit Processor :=
  let proc := mkProcessor config
  let step := preload s (some proc.config)
  if rejected step.1 then (step.2, Except.error ())
  else (step.2, Except.ok { proc with assets := some step.1, isInitialized := true })

/-- The error message thrown by `ensureInitialized`. -/
def notInitializedMsg : String :=
  "Processor not initialized. Use DeepFilterNet3Processor.create() to instantiate."

/-- The error message thrown when assets are absent despite initialization. -/
def assetsMissingMsg : String := "Assets not loaded"

/-- Method `createAudioWorkletNode(audioContext)`: `ensureInitialized` throws if
not initialized; then throws if `assets` is null; otherwise constructs the
worklet node with `processorOptions` drawn from the assets and
`this.config.noiseReductionLevel`, stores it and returns it. -/
def createAudioWorkletNode (p : Processor) : Except String (Processor × WorkletState) :=
  if p.isInitialized = false then Except.error notInitializedMsg
  else
    match p.assets with
    | none => Except.error assetsMissingMsg
    | some a =>
      let node : WorkletState :=
        { options := { assetsId := a, suppressionLevel := p.config.noiseReductionLevel },
          messages := [],
          disconnected := false }
      Except.ok ({ p with workletNode := some node }, node)

/-- Method `setSuppressionLevel(level)`: return unchanged if there is no worklet
node or `level` is NaN; otherwise post one message carrying
`Math.max(0, Math.min(100, Math.floor(level)))`. -/
def setSuppressionLevel (p : Processor) (level : JSNum) : Processor :=
  match p.workletNode with
  | none => p
  | some w =>
    if level.isNan then p
    else
      let clampedLevel :=
        JSNum.jsMax (JSNum.finite 0) (JSNum.jsMin (JSNum.finite 100) level.floor)
      { p with workletNode := some (postedNode w (Msg.suppression clampedLevel)) }

/-- Method `setNoiseSuppressionEnabled(enabled)`: return unchanged if there is no
worklet node; otherwise record `bypassEnabled := !enabled` and post a
bypass message with the same value. -/
def setNoiseSuppressionEnabled (p : Processor) (enabled : Bool) : Processor :=
  match p.workletNode with
  | none => p
  | some w =>
    { p with bypassEnabled := !enabled,
             workletNode := some (postedNode w (Msg.bypass (!enabled))) }

/-- Method `isNoiseSuppressionEnabled()`. -/
def isNoiseSuppressionEnabled (p : Processor) : Bool := !p.bypassEnabled

/-- Method `destroy()`: no-op unless initialized; otherwise disconnect and drop
the worklet node (the released, disconnected handle is returned as the
second component to keep the `disconnect()` side effect observable), null
the assets and clear `isInitialized`. -/
def destroy (p : Processor) : Processor × Option WorkletState :=
  if p.isInitialized = false then (p, none)
  else
    ({ p with workletNode := none, assets := none, isInitialized := false },
     p.workletNode.map fun w => { w with disconnected := true })

/-- Method `isReady()`: initialized and a worklet node currently exists. -/
def isReady (p : Processor) : Bool :=
  p.isInitialized && p.workletNode.isSome

/-- The integer clamp of a rational into [0,100]: floor, then clamp. -/
def intClamp (q : ℚ) : ℤ := max 0 (min 100 (Int.floor q))

/-- The settlement status of a promise, assigned by the environment.  The
cache logic in `preload` never inspects it. -/
inductive PStatus
  | pending
  | resolved
  | rejected
deriving DecidableEq, Repr

/-- The effective base location a `preload`/`create` request asks for:
`config?.assetConfig?.cdnUrl ?? defaultCdnUrl`. -/
def requestCdn (config : Option ProcessorConfig) : String :=
  effectiveCdn (config.bind ProcessorConfig.assetConfig)

/-- A configuration overriding the base location with `https://a`. -/
def cfgLocA : ProcessorConfig :=
  { sampleRate := none, noiseReductionLevel := none,
    assetConfig := some { cdnUrl := some "https://a" } }

/-- A configuration overriding the base location with `https://b`. -/
def cfgLocB : ProcessorConfig :=
  { sampleRate := none, noiseReductionLevel := none,
    assetConfig := some { cdnUrl := some "https://b" } }

/-- A concrete worklet node fresh from construction. -/
def demoW : WorkletState :=
  { options := { assetsId := 0, suppressionLevel := some 50 },
    messages := [], disconnected := false }

/-- A concrete instance in the state reached after a successful `create`
followed by a successful `createAudioWorkletNode`. -/
def demoProc : Processor :=
  { config := (mkProcessor emptyConfig).config,
    assets := some 0,
    workletNode := some demoW,
    isInitialized := true,
    bypassEnabled := false }

/-- The instance state after a successful `create({})` on a fresh process:
initialized and holding asset set 0, no worklet node yet. -/
def readyProc : Processor :=
  { mkProcessor emptyConfig with isInitialized := true, assets := some 0 }

/-- The instance produced by `create({})` on a fresh process followed by
`createAudioWorkletNode`, with every fetch succeeding, extracted from the
two `Except` layers. -/
def demoReady : Option Processor :=
  (create initState (fun _ => false) emptyConfig).2.toOption.bind
    fun proc => (createAudioWorkletNode proc).toOption.map Prod.fst

theorem requestCdn_mk (c : ProcessorConfig) :
    requestCdn (some (mkProcessor c).config) = requestCdn (some c) := rfl

theorem preload_mk (s : CacheState) (c : ProcessorConfig) :
    preload s (some (mkProcessor c).config) = preload s (some c) := rfl

theorem preload_hit (s : CacheState) (cfg : Option ProcessorConfig) (p : ℕ)
    (hp : s.preloadPromise = some p)
    (h : requestCdn cfg = effectiveCdn s.preloadConfig) :
    preload s cfg = (p, s) := by
  unfold preload
  rw [hp]
  simp only [requestCdn] at h
  simp [h]

theorem preload_start_of_none (s : CacheState) (cfg : Option ProcessorConfig)
    (hp : s.preloadPromise = none) :
    preload s cfg = startPreload s (cfg.bind ProcessorConfig.assetConfig) := by
  unfold preload
  rw [hp]

theorem preload_start_of_ne (s : CacheState) (cfg : Option ProcessorConfig)
    (h : requestCdn cfg ≠ effectiveCdn s.preloadConfig) :
    preload s cfg = startPreload s (cfg.bind ProcessorConfig.assetConfig) := by
  unfold preload
  simp only [requestCdn] at h
  cases hp : s.preloadPromise with
  | none => rfl
  | some p => simp [h]

theorem preload_join (s : CacheState) (c1 c2 : ProcessorConfig)
    (h : requestCdn (some c1) = requestCdn (some c2)) :
    preload (preload s (some c1)).2 (some c2) = preload s (some c1) := by
  by_cases hstart : s.preloadPromise = none ∨
      requestCdn (some c1) ≠ effectiveCdn s.preloadConfig
  · have hfirst : preload s (some c1) =
        startPreload s ((some c1).bind ProcessorConfig.assetConfig) := by
      rcases hstart with hp | hne
      · exact preload_start_of_none s (some c1) hp
      · exact preload_start_of_ne s (some c1) hne
    rw [hfirst]
    refine preload_hit _ _ s.nextId rfl ?_
    simpa [startPreload, requestCdn] using h.symm
  · push_neg at hstart
    obtain ⟨hp, heq⟩ := hstart
    obtain ⟨p, hp⟩ := Option.ne_none_iff_exists'.mp hp
    have hfirst := preload_hit s (some c1) p hp heq
    rw [hfirst]
    exact preload_hit s (some c2) p hp (h ▸ heq)

/-- C2: for two `preload` (or `create`) calls with equal effective base
locations and no different-location call in between, the second observes
the exact same pending/resolved promise and the same cache state (so no
second fetch is started); a `create` on the warmed cache resolves to the
instance holding exactly the assets of that promise and leaves the cache
untouched; and the call that did start the acquisition fetched each of the
two assets exactly once. -/
theorem C2_single_flight (s : CacheState) (c1 c2 : ProcessorConfig) (rejected : ℕ → Bool)
    (h : requestCdn (some c1) = requestCdn (some c2)) :
    preload (preload s (some c1)).2 (some c2) = preload s (some c1) ∧
    (create (preload s (some c1)).2 rejected c2).1 = (preload s (some c1)).2 ∧
    (rejected (preload s (some c1)).1 = false →
      (create (preload s (some c1)).2 rejected c2).2 =
        Except.ok { mkProcessor c2 with
                      assets := some (preload s (some c1)).1, isInitialized := true }) ∧
    (s.preloadPromise = none →
      (preload s (some c1)).2.fetches = s.fetches ++
        [{ base := requestCdn (some c1), kind := AssetKind.wasm },
         { base := requestCdn (some c1), kind := AssetKind.model }]) := by
  have hjoin := preload_join s c1 c2 h
  refine ⟨hjoin, ?_, ?_, ?_⟩
  · simp only [create, preload_mk, hjoin]
    split <;> rfl
  · intro hok
    simp only [create, preload_mk, hjoin, hok]
    simp
  · intro hp
    rw [preload_start_of_none s (some c1) hp]
    simp [startPreload, requestCdn]

/-- C9: once the stored promise for the current effective base location
has rejected, a later `preload` with an equal effective location still
returns that very promise and leaves the cache (including the fetch log)
unchanged, and a later `create` with an equal effective location rejects
with no new fetch: the failed entry is never evicted or replaced. -/
theorem C9_rejected_sticky (s : CacheState) (status : ℕ → PStatus) (rejected : ℕ → Bool)
    (p : ℕ) (c : ProcessorConfig)
    (hp : s.preloadPromise = some p)
    (hst : status p = PStatus.rejected)
    (hrj : rejected p = true)
    (hloc : requestCdn (some c) = effectiveCdn s.preloadConfig) :
    preload s (some c) = (p, s) ∧ create s rejected c = (s, Except.error ()) := by
  have hhit := preload_hit s (some c) p hp hloc
  refine ⟨hhit, ?_⟩
  simp only [create, preload_mk, hhit, hrj]
  simp

/-- C1 fails on the code: the cache is a single static slot.  Preloading
location `https://a` stores promise 0; preloading `https://b` replaces the
slot with promise 1, so the pending entry for `https://a` is invalidated —
a third request for `https://a` does not get promise 0 back but starts a
fresh acquisition (promise 2) with two new fetches. -/
theorem C1_counterexample :
    (preload initState (some cfgLocA)).1 = 0 ∧
    ((preload initState (some cfgLocA)).2).preloadPromise = some 0 ∧
    ((preload (preload initState (some cfgLocA)).2 (some cfgLocB)).2).preloadPromise = some 1 ∧
    (preload (preload (preload initState (some cfgLocA)).2 (some cfgLocB)).2 (some cfgLocA)).1
      = 2 ∧
    ((preload (preload (preload initState (some cfgLocA)).2 (some cfgLocB)).2
        (some cfgLocA)).2).fetches.length = 6 := by
  decide

/-- C1 amended: each request with a different effective base location does
start an independent acquisition (fresh promise, one fetch per asset), but
the cache holds at most one entry: the new acquisition overwrites the
single static slot, evicting the previously stored (pending or resolved)
promise for the other location. -/
theorem C1_single_slot (s : CacheState) (c : ProcessorConfig) (p : ℕ)
    (hp : s.preloadPromise = some p) (hwf : p < s.nextId)
    (hne : requestCdn (some c) ≠ effectiveCdn s.preloadConfig) :
    (preload s (some c)).1 = s.nextId ∧
    (preload s (some c)).2.preloadPromise = some s.nextId ∧
    (preload s (some c)).2.preloadConfig = c.assetConfig ∧
    (preload s (some c)).2.fetches = s.fetches ++
      [{ base := requestCdn (some c), kind := AssetKind.wasm },
       { base := requestCdn (some c), kind := AssetKind.model }] ∧
    (preload s (some c)).2.preloadPromise ≠ some p := by
  rw [preload_start_of_ne s (some c) hne]
  refine ⟨rfl, rfl, rfl, by simp [startPreload, requestCdn], ?_⟩
  show some s.nextId ≠ some p
  simp only [Ne, Option.some.injEq]
  omega

/-- C3 fails on the code: `create({})` on a fresh process with every fetch
succeeding resolves with an instance, yet `isReady()` on that instance is
`false`, because `isReady` also requires a worklet node and `create` never
constructs one. -/
theorem C3_counterexample :
    ((create initState (fun _ => false) emptyConfig).2.toOption.map isReady) = some false ∧
    ((create initState (fun _ => false) emptyConfig).2.toOption.map
        Processor.isInitialized) = some true := by
  decide

/-- C3 amended: when `create` resolves successfully the instance is
initialized and holds the acquired assets, but its worklet node is null,
so `isReady()` is `false` until `createAudioWorkletNode` succeeds; `create`
rejects exactly when the awaited acquisition rejects, and the rejection
carries no instance (so nothing half-initialized is left behind). -/
theorem C3_create_outcome (s : CacheState) (rejected : ℕ → Bool) (c : ProcessorConfig) :
    (∀ proc, (create s rejected c).2 = Except.ok proc →
       proc.isInitialized = true ∧
       proc.assets = some (preload s (some c)).1 ∧
       proc.workletNode = none ∧
       isReady proc = false) ∧
    ((create s rejected c).2 = Except.error () ↔
       rejected (preload s (some c)).1 = true) := by
  constructor
  · intro proc hok
    simp only [create, preload_mk] at hok
    by_cases hr : rejected (preload s (some c)).1 = true
    · simp [hr] at hok
    · simp [hr] at hok
      subst hok
      refine ⟨rfl, rfl, rfl, ?_⟩
      simp [isReady, mkProcessor]
  · simp only [create, preload_mk]
    by_cases hr : rejected (preload s (some c)).1 = true <;> simp [hr]

/-- C4: `createAudioWorkletNode` throws the "not initialized" error (whose
message directs the caller to `DeepFilterNet3Processor.create()`) whenever
the instance is not initialized, and throws the "assets not loaded" error
when it is initialized but `assets` is null; in both cases the result is an
error, so no worklet node is constructed. -/
theorem C4_uninitialized_guards (p : Processor) :
    (p.isInitialized = false →
       createAudioWorkletNode p = Except.error notInitializedMsg) ∧
    (p.isInitialized = true → p.assets = none →
       createAudioWorkletNode p = Except.error assetsMissingMsg) := by
  constructor
  · intro h
    simp [createAudioWorkletNode, h]
  · intro h ha
    simp [createAudioWorkletNode, h, ha]

/-- Witness for C4 at concrete instances: a freshly constructed instance
(never initialized) and an initialized instance whose assets are null. -/
theorem C4_uninitialized_guards_witness :
    createAudioWorkletNode (mkProcessor emptyConfig) = Except.error notInitializedMsg ∧
    createAudioWorkletNode { mkProcessor emptyConfig with isInitialized := true } =
      Except.error assetsMissingMsg :=
  ⟨(C4_uninitialized_guards (mkProcessor emptyConfig)).1 rfl,
   (C4_uninitialized_guards { mkProcessor emptyConfig with isInitialized := true }).2 rfl rfl⟩

/-- C5 fails on the code in one point: after `setNoiseSuppressionEnabled
false` and `destroy()`, the instance differs from a freshly created one —
`bypassEnabled` is still `true` (only that field differs), so the destroyed
state is not equivalent to `Created`. -/
theorem C5_counterexample :
    (demoReady.map fun proc =>
        ((destroy (setNoiseSuppressionEnabled proc false)).1 == mkProcessor emptyConfig,
         (destroy (setNoiseSuppressionEnabled proc false)).1 ==
           { mkProcessor emptyConfig with bypassEnabled := true })) = some (false, true) := by
  decide

/-- C5 amended: `destroy` on a never-initialized instance is a no-op; on an
initialized instance it disconnects and nulls the worklet node, clears the
assets and resets `isInitialized`, leaving every other field — including
the bypass flag, which is NOT reset to its freshly-created value —
unchanged; a second consecutive `destroy` is a no-op, and the control
operations after a `destroy` of an initialized instance are safe no-ops. -/
theorem C5_destroy_lifecycle (p : Processor) (lvl : JSNum) (b : Bool) :
    (p.isInitialized = false → destroy p = (p, none)) ∧
    (p.isInitialized = true →
       (destroy p).1 = { p with assets := none, workletNode := none, isInitialized := false } ∧
       (destroy p).2 = p.workletNode.map (fun w => { w with disconnected := true }) ∧
       setSuppressionLevel (destroy p).1 lvl = (destroy p).1 ∧
       setNoiseSuppressionEnabled (destroy p).1 b = (destroy p).1) ∧
    destroy (destroy p).1 = ((destroy p).1, none) := by
  by_cases hi : p.isInitialized = true
  · have hd : destroy p =
        ({ p with assets := none, workletNode := none, isInitialized := false },
         p.workletNode.map (fun w => { w with disconnected := true })) := by
      simp [destroy, hi]
    refine ⟨(fun hcontra => by simp [hi] at hcontra), ?_, ?_⟩
    · intro _
      refine ⟨by rw [hd], by rw [hd], ?_, ?_⟩
      · rw [hd]
        rfl
      · rw [hd]
        rfl
    · rw [hd]
      rfl
  · simp only [Bool.not_eq_true] at hi
    have hd : destroy p = (p, none) := by simp [destroy, hi]
    refine ⟨fun _ => hd, (fun hcontra => by simp [hi] at hcontra), ?_⟩
    rw [hd]
    exact hd

/-- Witness for C5 at concrete instances: destroying a ready instance
nulls its fields, a second `destroy` is a no-op, and `destroy` on a
never-initialized instance is a no-op. -/
theorem C5_destroy_lifecycle_witness :
    (destroy demoProc).1 =
      { demoProc with assets := none, workletNode := none, isInitialized := false } ∧
    destroy (destroy demoProc).1 = ((destroy demoProc).1, none) ∧
    destroy (mkProcessor emptyConfig) = (mkProcessor emptyConfig, none) ∧
    setSuppressionLevel (destroy demoProc).1 (JSNum.finite 10) = (destroy demoProc).1 := by
  have h := C5_destroy_lifecycle demoProc (JSNum.finite 10) true
  have h0 := C5_destroy_lifecycle (mkProcessor emptyConfig) (JSNum.finite 10) true
  exact ⟨(h.2.1 rfl).1, h.2.2, h0.1 rfl, (h.2.1 rfl).2.2.1⟩

/-- C6: with a worklet node present, a finite `level` results in exactly
one posted message whose value is the integer clamp of `level` into
[0,100] (floor, then clamp), with every other field of the instance
unchanged. -/
theorem C6_clamp_message (p : Processor) (w : WorkletState) (q : ℚ)
    (hw : p.workletNode = some w) :
    setSuppressionLevel p (JSNum.finite q) =
      { p with workletNode := some (postedNode w (Msg.suppression (JSNum.finite (intClamp q : ℚ)))) } := by
  have hval : JSNum.jsMax (JSNum.finite 0)
      (JSNum.jsMin (JSNum.finite 100) (JSNum.floor (JSNum.finite q))) =
      JSNum.finite ((intClamp q : ℤ) : ℚ) := by
    simp only [JSNum.floor, JSNum.jsMin, JSNum.jsMax, intClamp]
    congr 1
    push_cast
    rfl
  simp only [setSuppressionLevel, hw, JSNum.isNan, Bool.false_eq_true, if_false, hval]

/-- Witness for C6: the clamp at the sample inputs from the spec, sent as the sole
message: -5 maps to 0, 250 maps to 100, and 50.9 maps to 50. -/
theorem C6_clamp_message_witness :
    setSuppressionLevel demoProc (JSNum.finite (-5)) =
      { demoProc with workletNode := some (postedNode demoW (Msg.suppression (JSNum.finite 0))) } ∧
    setSuppressionLevel demoProc (JSNum.finite 250) =
      { demoProc with workletNode := some (postedNode demoW (Msg.suppression (JSNum.finite 100))) } ∧
    setSuppressionLevel demoProc (JSNum.finite (509/10)) =
      { demoProc with workletNode := some (postedNode demoW (Msg.suppression (JSNum.finite 50))) } := by
  have h1 := C6_clamp_message demoProc demoW (-5) rfl
  have h2 := C6_clamp_message demoProc demoW 250 rfl
  have h3 := C6_clamp_message demoProc demoW (509/10) rfl
  refine ⟨?_, ?_, ?_⟩
  · rw [h1]; decide
  · rw [h2]; decide
  · have hfloor : intClamp (509 / 10) = 50 := by
      have hf : ⌊(509 / 10 : ℚ)⌋ = 50 := by
        rw [Int.floor_eq_iff]
        norm_num
      simp [intClamp, hf]
    rw [h3, hfloor]
    decide

/-- C7 fails on the code for infinite inputs: the guard only rejects NaN
(`isNaN`), so with a worklet node present, `setSuppressionLevel(Infinity)`
is not a no-op — it posts a message with value 100. -/
theorem C7_counterexample :
    setSuppressionLevel demoProc JSNum.posInf =
      { demoProc with workletNode := some (postedNode demoW (Msg.suppression (JSNum.finite 100))) } := by
  decide

/-- C7 amended: `setSuppressionLevel` is a silent no-op when no worklet
node exists or the level is NaN, and it never fails (it is a total
function); but a non-finite, non-NaN level is not ignored: +Infinity posts
a message with value 100 and -Infinity posts one with value 0. -/
theorem C7_silent_tolerance (p : Processor) (level : JSNum) :
    (p.workletNode = none → setSuppressionLevel p level = p) ∧
    setSuppressionLevel p JSNum.nan = p ∧
    (∀ w, p.workletNode = some w →
       setSuppressionLevel p JSNum.posInf =
         { p with workletNode := some (postedNode w (Msg.suppression (JSNum.finite 100))) } ∧
       setSuppressionLevel p JSNum.negInf =
         { p with workletNode := some (postedNode w (Msg.suppression (JSNum.finite 0))) }) := by
  refine ⟨?_, ?_, ?_⟩
  · intro hn
    simp [setSuppressionLevel, hn]
  · cases hp : p.workletNode <;> simp [setSuppressionLevel, hp, JSNum.isNan]
  · intro w hw
    constructor <;>
      simp [setSuppressionLevel, hw, JSNum.isNan, JSNum.floor, JSNum.jsMin, JSNum.jsMax]

/-- Witness for C7: a fresh instance (no worklet node) ignores a finite
level, and a ready instance ignores NaN. -/
theorem C7_silent_tolerance_witness :
    setSuppressionLevel (mkProcessor emptyConfig) (JSNum.finite 10) = mkProcessor emptyConfig ∧
    setSuppressionLevel demoProc JSNum.nan = demoProc :=
  ⟨(C7_silent_tolerance (mkProcessor emptyConfig) (JSNum.finite 10)).1 rfl,
   (C7_silent_tolerance demoProc JSNum.nan).2.1⟩

/-- C8: with a worklet node present, `setNoiseSuppressionEnabled b`
records the bypass flag as `!b` and posts a bypass message with `!b`, and
`isNoiseSuppressionEnabled` afterwards returns `b` — the logical negation
of the recorded bypass flag, regardless of message delivery. -/
theorem C8_last_set_intent (p : Processor) (w : WorkletState) (b : Bool)
    (hw : p.workletNode = some w) :
    isNoiseSuppressionEnabled (setNoiseSuppressionEnabled p b) = b ∧
    (setNoiseSuppressionEnabled p b).bypassEnabled = !b ∧
    (setNoiseSuppressionEnabled p b).workletNode = some (postedNode w (Msg.bypass (!b))) := by
  simp [setNoiseSuppressionEnabled, isNoiseSuppressionEnabled, hw]

/-- Witness for C8: on a ready instance, `setNoiseSuppressionEnabled
false` then `isNoiseSuppressionEnabled()` returns `false`. -/
theorem C8_last_set_intent_witness :
    isNoiseSuppressionEnabled (setNoiseSuppressionEnabled demoProc false) = false :=
  (C8_last_set_intent demoProc demoW false rfl).1

/-- C10: the constructor fills an absent `sampleRate` with 48000 and an
absent `noiseReductionLevel` with 50, and `createAudioWorkletNode` on an
initialized instance with assets present constructs the worklet node with
`suppressionLevel` equal to exactly the configured `noiseReductionLevel` of
the instance (and its assets). -/
theorem C10_defaults_and_options (c : ProcessorConfig) (p : Processor) (a : ℕ)
    (hs : c.sampleRate = none) (hn : c.noiseReductionLevel = none)
    (hi : p.isInitialized = true) (ha : p.assets = some a) :
    (mkProcessor c).config.sampleRate = some 48000 ∧
    (mkProcessor c).config.noiseReductionLevel = some 50 ∧
    createAudioWorkletNode p =
      Except.ok ({ p with workletNode := some ⟨⟨a, p.config.noiseReductionLevel⟩, [], false⟩ },
                 ⟨⟨a, p.config.noiseReductionLevel⟩, [], false⟩) := by
  refine ⟨by simp [mkProcessor, hs], by simp [mkProcessor, hn], ?_⟩
  simp [createAudioWorkletNode, hi, ha]

/-- Witness for C10 at `{}` and an initialized instance holding asset set
0: defaults 48000 and 50, and the worklet node is parameterized with the
configured level 50. -/
theorem C10_defaults_and_options_witness :
    (mkProcessor emptyConfig).config.sampleRate = some 48000 ∧
    (mkProcessor emptyConfig).config.noiseReductionLevel = some 50 ∧
    createAudioWorkletNode readyProc =
      Except.ok ({ readyProc with workletNode := some ⟨⟨0, some 50⟩, [], false⟩ },
                 ⟨⟨0, some 50⟩, [], false⟩) := by
  have h := C10_defaults_and_options emptyConfig readyProc 0 rfl rfl rfl rfl
  exact ⟨h.1, h.2.1, h.2.2⟩

/-- Witness for C2: two back-to-back `preload` calls for the same override
location observe the same promise and cache state, hence no second fetch. -/
theorem C2_single_flight_witness :
    preload (preload initState (some cfgLocA)).2 (some cfgLocA) =
      preload initState (some cfgLocA) ∧
    (preload initState (some cfgLocA)).2.fetches.length = 2 := by
  have h := C2_single_flight initState cfgLocA cfgLocA (fun _ => false) rfl
  refine ⟨h.1, ?_⟩
  rw [h.2.2.2 rfl]
  decide

/-- Witness for C1 amended: after preloading location `https://a`, a
request for `https://b` stores the fresh promise 1 and evicts promise 0. -/
theorem C1_single_slot_witness :
    (preload (preload initState (some cfgLocA)).2 (some cfgLocB)).2.preloadPromise = some 1 ∧
    (preload (preload initState (some cfgLocA)).2 (some cfgLocB)).2.preloadPromise ≠ some 0 := by
  have h := C1_single_slot (preload initState (some cfgLocA)).2 cfgLocB 0 rfl
    (by decide) (by decide)
  exact ⟨h.2.1, h.2.2.2.2⟩

/-- Witness for C3 amended: the instance returned by a successful
`create({})` is initialized, holds asset set 0, and has `isReady()` false. -/
theorem C3_create_outcome_witness :
    readyProc.isInitialized = true ∧ isReady readyProc = false := by
  have h := (C3_create_outcome initState (fun _ => false) emptyConfig).1 readyProc rfl
  exact ⟨h.1, h.2.2.2⟩

/-- Witness for C9: with the single fetch for `https://a` having rejected,
a repeated `preload` returns the same promise 0 with the cache unchanged,
and a `create` for the same location rejects without fetching. -/
theorem C9_rejected_sticky_witness :
    preload (preload initState (some cfgLocA)).2 (some cfgLocA) =
      (0, (preload initState (some cfgLocA)).2) ∧
    create (preload initState (some cfgLocA)).2 (fun _ => true) cfgLocA =
      ((preload initState (some cfgLocA)).2, Except.error ()) :=
  C9_rejected_sticky (preload initState (some cfgLocA)).2 (fun _ => PStatus.rejected)
    (fun _ => true) 0 cfgLocA rfl rfl rfl rfl

end DFN3
